import Mathlib

/-!
Verification development for the StreamChatWars team membership & action
pipeline.  The Python source is embedded shallowly: pure functions become
Lean functions, the mutable global state (teams, user registry) becomes an
explicit state record that operations transform, Python `set` objects become
lists used with set semantics (membership-based insert/discard), Python
`deque(maxlen=n)` becomes a bounded-append list with the oldest element at
the head, and Python exceptions that the source catches locally become the
corresponding control flow.  Text is represented by `String`, with helper
functions over `String.data` mirroring the Python `str` operations used by
the source (`startswith`, `split`, substring containment, `int()` on digit
strings).
-/

/-- Python `s.startswith(p)` on strings. -/
def strStartsWith (s p : String) : Bool := p.data.isPrefixOf s.data

/-- Python `l.split(c)` for a single-character separator, on char lists. -/
def splitOnChar (c : Char) (l : List Char) : List (List Char) :=
  match l with
  | [] => [[]]
  | x :: xs =>
    let r := splitOnChar c xs
    if x = c then [] :: r
    else match r with
      | [] => [[x]]
      | y :: ys => (x :: y) :: ys

/-- Python `int(s)` on a non-negative digit string, `none` when malformed. -/
def digitsToNat (l : List Char) : Option Nat :=
  if l.isEmpty then none
  else l.foldl (fun acc c => match acc with
    | none => none
    | some n => if c.isDigit then some (n * 10 + (c.toNat - 48)) else none)
    (some 0)

/-- Python `pat in s` substring test on strings. -/
def containsSub (s pat : String) : Bool := decide (pat.data <:+: s.data)

/-- Python `set.add`: insert while keeping set semantics on a list. -/
def setInsert (s : List String) (x : String) : List String :=
  if x ∈ s then s else s ++ [x]

/-- Python `set.discard` / `set.remove` on a list with set semantics. -/
def setDiscard (s : List String) (x : String) : List String :=
  s.filter (fun y => y ≠ x)

/-- Append to a `deque(maxlen := maxlen)`: the oldest element (list head)
is evicted silently when the deque is full. -/
def boundedAppend {α : Type} (maxlen : Nat) (q : List α) (x : α) : List α :=
  (q ++ [x]).drop (q.length + 1 - maxlen)

/-- `helpers_native.clamp`: limit `v` to be at least `lo` and at most `hi`,
swapping the bounds first when `lo > hi` (exactly as the source does). -/
def clamp (lo v hi : Int) : Int :=
  if lo > hi then max hi (min v lo) else max lo (min v hi)

/-- `ChatMessage`: the fields of the source dataclass that the team
membership & action pipeline reads (`user`, `channel`, `message`, `tags`).
The tag map is an association list. -/
structure ChatMessage where
  user : String
  channel : String
  message : String
  tags : List (String × String) := []
deriving DecidableEq, Repr

/-- Python `msg.tags.get(k, dflt)`. -/
def tagsGet (tags : List (String × String)) (k dflt : String) : String :=
  ((tags.find? (fun p => p.1 == k)).map (·.2)).getD dflt

/-! ## Quadstate (`_shared/enums.py`) -/

/-- The four values of the `Quadstate` IntFlag. -/
inductive Quadstate where
  | AbsolutelyTrue
  | MaybeTrue
  | AbsolutelyFalse
  | MaybeFalse
deriving DecidableEq, Repr

/-- The underlying IntFlag value: `_TRUE = 0b01`, `_MAYBE = 0b10`. -/
def Quadstate.value : Quadstate → Nat
  | .AbsolutelyTrue => 1
  | .MaybeTrue => 3
  | .AbsolutelyFalse => 0
  | .MaybeFalse => 2

/-- `Quadstate.__bool__`: `bool(self.value & _TRUE)`. -/
def Quadstate.toBool (q : Quadstate) : Bool := (q.value &&& 1) != 0

/-- `Quadstate.is_certain`: `not self.value & _MAYBE`. -/
def Quadstate.is_certain (q : Quadstate) : Bool := (q.value &&& 2) == 0

/-- C9: `bool(AbsolutelyTrue)` and `bool(MaybeTrue)` are both `True`,
`bool(AbsolutelyFalse)` and `bool(MaybeFalse)` are both `False`, and
`is_certain()` returns true exactly for `AbsolutelyTrue` and
`AbsolutelyFalse`. -/
theorem quadstate_bool_and_certainty :
    Quadstate.toBool .AbsolutelyTrue = true ∧
    Quadstate.toBool .MaybeTrue = true ∧
    Quadstate.toBool .AbsolutelyFalse = false ∧
    Quadstate.toBool .MaybeFalse = false ∧
    ∀ q : Quadstate,
      q.is_certain = (q = .AbsolutelyTrue || q = .AbsolutelyFalse) := by
  refine ⟨rfl, rfl, rfl, rfl, ?_⟩
  intro q
  cases q <;> rfl

/-! ## UserList (`userdata/userlist.py`) -/

/-- `SpecialGroupsContainer`: one channel set per special group.  The source
keeps these sets both as attributes and in a `mapping` dict whose keys are
exactly the 13 group tokens; the embedding uses one record field per key. -/
structure SpecialGroups where
  broadcaster : List String := []
  mods : List String := []
  vips : List String := []
  subs : List String := []
  tier3subs : List String := []
  tier2subs : List String := []
  tier1subs : List String := []
  partners : List String := []
  founders : List String := []
  staff : List String := []
  prime : List String := []
  turbo : List String := []
  users : List String := []
deriving DecidableEq, Repr

/-- `UserList`: fixed users plus special groups, with the verdict cache
(`known_users` / `included_users`). -/
structure UserList where
  cache_users : Bool := true
  known_users : List String := []
  included_users : List String := []
  fixed_users : List String := []
  special_groups : SpecialGroups := {}
deriving DecidableEq, Repr

/-- A freshly constructed `UserList()` (all sets empty, caching on). -/
def freshUserList : UserList := {}

/-- Shared shape of the subgroup checks: `if <group set>: if msg.channel in
<group set>: return <payload>; return False`. -/
def channelGate (s : List String) (chan : String) (payload : Bool) : Bool :=
  if !s.isEmpty then
    if chan ∈ s then payload else false
  else false

/-- `UserList.is_broadcaster`. -/
def is_broadcaster (g : SpecialGroups) (msg : ChatMessage) : Bool :=
  channelGate g.broadcaster msg.channel
    (containsSub (tagsGet msg.tags "badges" "") "broadcaster")

/-- `UserList.is_mod`. -/
def is_mod (g : SpecialGroups) (msg : ChatMessage) : Bool :=
  channelGate g.mods msg.channel (tagsGet msg.tags "mod" "0" != "0")

/-- `UserList.is_vip`. -/
def is_vip (g : SpecialGroups) (msg : ChatMessage) : Bool :=
  channelGate g.vips msg.channel
    (containsSub (tagsGet msg.tags "badges" "") "vip")

/-- `UserList.is_subscribed`. -/
def is_subscribed (g : SpecialGroups) (msg : ChatMessage) : Bool :=
  channelGate g.subs msg.channel (tagsGet msg.tags "subscriber" "0" != "0")

/-- The tier of the first `subscriber/<code>` badge: `int(int(code)/1000)`.
`none` when no subscriber badge is present (the Python loop then falls
through to `return False`).  A malformed `<code>` raises in the source;
the embedding reads it as `0`. -/
def tierFromBadges (badges : String) : Option Nat :=
  (splitOnChar ',' badges.data).findSome? (fun badge =>
    match splitOnChar '/' badge with
    | s :: rest =>
      if s = "subscriber".data then
        some (((digitsToNat (rest.headD [])).getD 0) / 1000)
      else none
    | [] => none)

/-- Common body of the three `is_tierNsub` checks. -/
def tierCheck (s : List String) (msg : ChatMessage) (tier : Nat) : Bool :=
  channelGate s msg.channel
    (if tagsGet msg.tags "subscriber" "0" != "0" then
      ((tierFromBadges (tagsGet msg.tags "badges" "")).map (· == tier)).getD
        false
    else false)

/-- `UserList.is_tier3sub`. -/
def is_tier3sub (g : SpecialGroups) (msg : ChatMessage) : Bool :=
  tierCheck g.tier3subs msg 3

/-- `UserList.is_tier2sub`. -/
def is_tier2sub (g : SpecialGroups) (msg : ChatMessage) : Bool :=
  tierCheck g.tier2subs msg 2

/-- `UserList.is_tier1sub` (tier-1 codes divide to 0). -/
def is_tier1sub (g : SpecialGroups) (msg : ChatMessage) : Bool :=
  tierCheck g.tier1subs msg 0

/-- `UserList.is_partner`. -/
def is_partner (g : SpecialGroups) (msg : ChatMessage) : Bool :=
  channelGate g.partners msg.channel
    (containsSub (tagsGet msg.tags "badges" "") "partner")

/-- `UserList.is_founder`. -/
def is_founder (g : SpecialGroups) (msg : ChatMessage) : Bool :=
  channelGate g.founders msg.channel
    (containsSub (tagsGet msg.tags "badges" "") "founder")

/-- `UserList.is_staff`. -/
def is_staff (g : SpecialGroups) (msg : ChatMessage) : Bool :=
  channelGate g.staff msg.channel
    (containsSub (tagsGet msg.tags "badges" "") "staff"
      || containsSub (tagsGet msg.tags "badges" "") "admin")

/-- `UserList.is_prime`. -/
def is_prime (g : SpecialGroups) (msg : ChatMessage) : Bool :=
  channelGate g.prime msg.channel
    (containsSub (tagsGet msg.tags "badges" "") "premium")

/-- `UserList.is_turbo`. -/
def is_turbo (g : SpecialGroups) (msg : ChatMessage) : Bool :=
  channelGate g.turbo msg.channel
    (containsSub (tagsGet msg.tags "badges" "") "turbo")

/-- `UserList.is_user`: membership of the channel itself in the group. -/
def is_user (g : SpecialGroups) (msg : ChatMessage) : Bool :=
  channelGate g.users msg.channel true

/-- `UserList.is_in_any_subgroup`: `any` over `subgroup_checks` in the
order the constructor lists them. -/
def is_in_any_subgroup (g : SpecialGroups) (msg : ChatMessage) : Bool :=
  is_broadcaster g msg || is_mod g msg || is_vip g msg || is_subscribed g msg
    || is_tier3sub g msg || is_tier2sub g msg || is_tier1sub g msg
    || is_partner g msg || is_founder g msg || is_staff g msg
    || is_prime g msg || is_turbo g msg || is_user g msg

/-- `UserList.message_in_list`: cached verdict when caching is on and the
user is known; otherwise fixed users, then subgroups; the verdict is cached
either way.  Returns the verdict together with the updated list. -/
def message_in_list (ul : UserList) (msg : ChatMessage) : Bool × UserList :=
  if ul.cache_users = true ∧ msg.user ∈ ul.known_users then
    (decide (msg.user ∈ ul.included_users), ul)
  else if msg.user ∈ ul.fixed_users then
    (true, { ul with included_users := setInsert ul.included_users msg.user,
                     known_users := setInsert ul.known_users msg.user })
  else if is_in_any_subgroup ul.special_groups msg then
    (true, { ul with included_users := setInsert ul.included_users msg.user,
                     known_users := setInsert ul.known_users msg.user })
  else
    (false, { ul with known_users := setInsert ul.known_users msg.user })

/-- `UserListDict`: the plain snapshot structure produced by `export_dict`
(`users` list plus the group→channel-list mapping, which always holds
exactly the 13 group keys). -/
structure UserListDict where
  users : List String
  groups : SpecialGroups
deriving DecidableEq, Repr

/-- `UserList.export_dict`. -/
def export_dict (ul : UserList) : UserListDict :=
  { users := ul.fixed_users, groups := ul.special_groups }

/-- Fold `set.add` over a channel list, as `import_dict` does per group. -/
def addAll (s : List String) (l : List String) : List String :=
  l.foldl setInsert s

/-- `UserList.import_dict`: add the users and group channels from the
snapshot (never clearing existing entries), then invalidate the cache by
clearing `known_users`. -/
def import_dict (ul : UserList) (d : UserListDict) : UserList :=
  { ul with
    fixed_users := addAll ul.fixed_users d.users
    special_groups :=
      { broadcaster := addAll ul.special_groups.broadcaster d.groups.broadcaster
        mods := addAll ul.special_groups.mods d.groups.mods
        vips := addAll ul.special_groups.vips d.groups.vips
        subs := addAll ul.special_groups.subs d.groups.subs
        tier3subs := addAll ul.special_groups.tier3subs d.groups.tier3subs
        tier2subs := addAll ul.special_groups.tier2subs d.groups.tier2subs
        tier1subs := addAll ul.special_groups.tier1subs d.groups.tier1subs
        partners := addAll ul.special_groups.partners d.groups.partners
        founders := addAll ul.special_groups.founders d.groups.founders
        staff := addAll ul.special_groups.staff d.groups.staff
        prime := addAll ul.special_groups.prime d.groups.prime
        turbo := addAll ul.special_groups.turbo d.groups.turbo
        users := addAll ul.special_groups.users d.groups.users }
    known_users := [] }

/-! ## C8: export/import round-trip lemmas -/

theorem mem_addAll {x : String} {l s : List String} :
    x ∈ addAll s l ↔ x ∈ s ∨ x ∈ l := by
  induction l generalizing s with
  | nil => simp [addAll]
  | cons y ys ih =>
    show x ∈ addAll (setInsert s y) ys ↔ _
    rw [ih]
    unfold setInsert
    by_cases hy : y ∈ s
    · simp only [if_pos hy]
      constructor
      · rintro (h | h)
        · exact Or.inl h
        · exact Or.inr (List.mem_cons_of_mem _ h)
      · rintro (h | h)
        · exact Or.inl h
        · rcases List.mem_cons.mp h with rfl | h
          · exact Or.inl hy
          · exact Or.inr h
    · simp only [if_neg hy, List.mem_append, List.mem_singleton,
        List.mem_cons]
      tauto

theorem isEmpty_eq_of_memEquiv {s t : List String}
    (h : ∀ x, x ∈ s ↔ x ∈ t) : s.isEmpty = t.isEmpty := by
  cases s with
  | nil =>
    cases t with
    | nil => rfl
    | cons y ys => exact absurd ((h y).mpr (by simp)) (by simp)
  | cons x xs =>
    cases t with
    | nil => exact absurd ((h x).mp (by simp)) (by simp)
    | cons y ys => rfl

theorem channelGate_congr {s t : List String} (c : String) (p : Bool)
    (h : ∀ x, x ∈ s ↔ x ∈ t) : channelGate s c p = channelGate t c p := by
  unfold channelGate
  rw [isEmpty_eq_of_memEquiv h]
  by_cases hc : c ∈ s
  · rw [if_pos hc, if_pos ((h c).mp hc)]
  · rw [if_neg hc, if_neg (fun hct => hc ((h c).mpr hct))]

theorem mem_addAll_nil {x : String} {l : List String} :
    x ∈ addAll [] l ↔ x ∈ l := by
  rw [mem_addAll]
  simp

theorem is_in_any_subgroup_addAll_nil (g : SpecialGroups) (msg : ChatMessage) :
    is_in_any_subgroup
      { broadcaster := addAll [] g.broadcaster
        mods := addAll [] g.mods
        vips := addAll [] g.vips
        subs := addAll [] g.subs
        tier3subs := addAll [] g.tier3subs
        tier2subs := addAll [] g.tier2subs
        tier1subs := addAll [] g.tier1subs
        partners := addAll [] g.partners
        founders := addAll [] g.founders
        staff := addAll [] g.staff
        prime := addAll [] g.prime
        turbo := addAll [] g.turbo
        users := addAll [] g.users } msg = is_in_any_subgroup g msg := by
  unfold is_in_any_subgroup is_broadcaster is_mod is_vip is_subscribed
    is_tier3sub is_tier2sub is_tier1sub is_partner is_founder is_staff
    is_prime is_turbo is_user tierCheck
  rw [channelGate_congr _ _ (fun _ => mem_addAll_nil),
    channelGate_congr _ _ (fun _ => mem_addAll_nil),
    channelGate_congr _ _ (fun _ => mem_addAll_nil),
    channelGate_congr _ _ (fun _ => mem_addAll_nil),
    channelGate_congr _ _ (fun _ => mem_addAll_nil),
    channelGate_congr _ _ (fun _ => mem_addAll_nil),
    channelGate_congr _ _ (fun _ => mem_addAll_nil),
    channelGate_congr _ _ (fun _ => mem_addAll_nil),
    channelGate_congr _ _ (fun _ => mem_addAll_nil),
    channelGate_congr _ _ (fun _ => mem_addAll_nil),
    channelGate_congr _ _ (fun _ => mem_addAll_nil),
    channelGate_congr _ _ (fun _ => mem_addAll_nil),
    channelGate_congr _ _ (fun _ => mem_addAll_nil)]

/-- C8 (amended): provided the probe message's user is not in `L`'s
`known_users` cache, importing `L.export_dict` into a freshly constructed
`UserList` reproduces `L`'s `message_in_list` verdict for that probe. -/
theorem export_import_roundtrip (L : UserList) (msg : ChatMessage)
    (h : msg.user ∉ L.known_users) :
    (message_in_list (import_dict freshUserList (export_dict L)) msg).1
      = (message_in_list L msg).1 := by
  have himp : import_dict freshUserList (export_dict L) =
      { cache_users := true, known_users := [], included_users := [],
        fixed_users := addAll [] L.fixed_users,
        special_groups :=
          { broadcaster := addAll [] L.special_groups.broadcaster
            mods := addAll [] L.special_groups.mods
            vips := addAll [] L.special_groups.vips
            subs := addAll [] L.special_groups.subs
            tier3subs := addAll [] L.special_groups.tier3subs
            tier2subs := addAll [] L.special_groups.tier2subs
            tier1subs := addAll [] L.special_groups.tier1subs
            partners := addAll [] L.special_groups.partners
            founders := addAll [] L.special_groups.founders
            staff := addAll [] L.special_groups.staff
            prime := addAll [] L.special_groups.prime
            turbo := addAll [] L.special_groups.turbo
            users := addAll [] L.special_groups.users } } := rfl
  rw [himp]
  unfold message_in_list
  dsimp only
  rw [if_neg (show ¬(true = true ∧ msg.user ∈ ([] : List String)) from
      fun hc => List.not_mem_nil msg.user hc.2),
    if_neg (show ¬(L.cache_users = true ∧ msg.user ∈ L.known_users) from
      fun hc => h hc.2)]
  by_cases hf : msg.user ∈ L.fixed_users
  · rw [if_pos (mem_addAll_nil.mpr hf), if_pos hf]
  · rw [if_neg (fun hc => hf (mem_addAll_nil.mp hc)), if_neg hf,
      is_in_any_subgroup_addAll_nil]
    by_cases hg : is_in_any_subgroup L.special_groups msg = true
    · rw [if_pos hg, if_pos hg]
    · rw [if_neg hg, if_neg hg]

/-- Witness for `export_import_roundtrip` at a concrete list and probe. -/
theorem export_import_roundtrip_witness :
    (let L : UserList :=
      { fixed_users := ["bob"], special_groups := { mods := ["#chan"] } }
     let msg : ChatMessage :=
      { user := "alice", channel := "#chan", message := "+left",
        tags := [("mod", "1")] }
     msg.user ∉ L.known_users ∧
      (message_in_list (import_dict freshUserList (export_dict L)) msg).1
        = (message_in_list L msg).1) :=
  ⟨by decide, export_import_roundtrip _ _ (by decide)⟩

/-- C8 counterexample setup: a list whose only rule is the `$mods` group on
`#chan`, whose cache was populated by a message carrying the mod tag. -/
def c8_L : UserList :=
  (message_in_list { special_groups := { mods := ["#chan"] } }
    { user := "alice", channel := "#chan", message := "+left",
      tags := [("mod", "1")] }).2

/-- A probe from the same user without the mod tag. -/
def c8_probe : ChatMessage :=
  { user := "alice", channel := "#chan", message := "+left",
    tags := [("mod", "0")] }

/-- C8 counterexample: `c8_L` answers the probe from its per-user cache
(`true`), while the list rebuilt by `import_dict` from `c8_L.export_dict`
re-evaluates the group predicate and answers `false` — the exported data do
not determine the verdicts. -/
theorem export_import_roundtrip_counterexample :
    (message_in_list c8_L c8_probe).1 = true ∧
    (message_in_list (import_dict freshUserList (export_dict c8_L))
      c8_probe).1 = false := by
  decide

/-! ## Actionset translation (`actionsets/subclasses/base_multikey.py`)

The regex front end (`VERB_DELAY_DURATION_REGEX.findall`) is abstracted as
the list of its matches: one `(verb, delay, duration)` triple per match,
where an absent group reads as `0` (`int(x) if x else 0`).  Everything the
source does with a match is embedded below. -/

/-- `INPUT_TYPE.PRESS_KEY`. -/
def PRESS_KEY : Int := 1

/-- `INPUT_TYPE.HOLD_KEY`. -/
def HOLD_KEY : Int := -1

/-- `INPUT_TYPE.RELEASE_KEY`. -/
def RELEASE_KEY : Int := 0

/-- `VerbParamDict`: one timed sub-action of a verb. -/
structure VerbParam where
  key : String
  delay : Int
  duration : Int
  min_time : Int
  max_time : Int
  input_type : Int
deriving DecidableEq, Repr

/-- One keyword-argument record for `press_multiple_Keys`
(`FuncArgsDict`). -/
structure FuncArgs where
  key : String
  delay : Int
  duration : Int
deriving DecidableEq, Repr

/-- Python `dict.get(k, None)` on an association list of verb tables. -/
def dictGet (d : List (String × List VerbParam)) (k : String) :
    Option (List VerbParam) :=
  (d.find? (fun p => p.1 == k)).map (·.2)

/-- The multikey actionset state used by translation: the command marker
(source field `action_prefix`), the verb and macro tables, the per-player
key table and the player index. -/
structure MKActionset where
  action_marker : String := "+"
  player_index : Nat := 0
  verb_dict : List (String × List VerbParam) := []
  macro_dict : List (String × List VerbParam) := []
  key_dict : List (String × List String) := []
deriving DecidableEq, Repr

/-- `Keyboard_Actionset.translate_verb_parameters_to_key`: look the verb
parameter's `key` up in `key_dict` and pick the `player_index` entry
(`None`/an exception on a missing key collapses to `none`, both making the
caller skip the rest of this verb). -/
def translate_verb_parameters_to_key (a : MKActionset) (p : VerbParam) :
    Option String :=
  match (a.key_dict.find? (fun q => q.1 == p.key)).map (·.2) with
  | none => none
  | some keys => keys.get? a.player_index

/-- Loop body of `translate_message_contents_to_args_list` for one verb
parameter: key lookup, delay clamped by `clamp(0, ., max_time)`, duration
clamped by `clamp(min_time, ., max_time - delay)` for press-type
sub-actions and set to the raw `input_type` constant otherwise. -/
def processVerbParam (a : MKActionset) (pdelay pduration inherent : Int)
    (p : VerbParam) : Option FuncArgs :=
  match translate_verb_parameters_to_key a p with
  | none => none
  | some k =>
    let delay := clamp 0 (pdelay + p.delay) p.max_time
    let duration :=
      if p.input_type = PRESS_KEY then
        if pduration ≠ 0 then
          clamp p.min_time (pduration + (p.duration - inherent))
            (p.max_time - delay)
        else
          clamp p.min_time p.duration (p.max_time - delay)
      else p.input_type
    some { key := k, delay := delay, duration := duration }

/-- Process a verb's parameter list in order; a key-lookup failure raises
in the source and is caught at the match level, so it aborts the remaining
parameters of this verb while keeping the sub-actions already appended. -/
def processVerbParams (a : MKActionset) (pdelay pduration inherent : Int) :
    List VerbParam → List FuncArgs
  | [] => []
  | p :: rest =>
    match processVerbParam a pdelay pduration inherent p with
    | none => []
    | some fa => fa :: processVerbParams a pdelay pduration inherent rest

/-- Handle one regex match `(verb, delay, duration)`: look the verb up in
`verb_dict`, falling back to `macro_dict`; an unknown verb is skipped; an
empty parameter list raises `IndexError` at `verb_param_list[0]`, which is
caught and also skips the match; otherwise the first parameter's default
duration is the pivot (`inherent_duration`). -/
def processMatch (a : MKActionset) (m : String × Int × Int) :
    List FuncArgs :=
  match (dictGet a.verb_dict m.1).orElse (fun _ => dictGet a.macro_dict m.1)
    with
  | none => []
  | some [] => []
  | some (p0 :: rest) =>
    processVerbParams a m.2.1 m.2.2 p0.duration (p0 :: rest)

/-- `translate_message_contents_to_args_list` over the abstracted match
list: the per-match results accumulate into one `args_list`. -/
def translate_message_contents_to_args_list (a : MKActionset)
    (ms : List (String × Int × Int)) : List FuncArgs :=
  ms.flatMap (processMatch a)

/-- `build_partial`, reduced to the payload the partial function would
carry: `none` when the args list is empty, otherwise the args list. -/
def build_payload (a : MKActionset)
    (ms : List (String × Int × Int)) : Option (List FuncArgs) :=
  let args_list := translate_message_contents_to_args_list a ms
  if args_list.length = 0 then none else some args_list

/-- `Actionset.message_is_command`. -/
def message_is_command (a : MKActionset) (msg : ChatMessage) : Bool :=
  strStartsWith msg.message a.action_marker

/-- `translate_user_message_to_action`, with the regex front end abstracted
as `parse`. -/
def translate_user_message_to_action (a : MKActionset)
    (parse : String → List (String × Int × Int)) (msg : ChatMessage) :
    Option (List FuncArgs) :=
  if message_is_command a msg then build_payload a (parse msg.message)
  else none

/-! ## C6/C7: translation clamping and skipping -/

theorem clamp_bounds (lo v hi : Int) :
    min lo hi ≤ clamp lo v hi ∧ clamp lo v hi ≤ max lo hi := by
  unfold clamp
  split <;> constructor <;> omega

/-- A one-verb keyboard-style actionset with the clamp bounds from the
spec's example: `min_time = 50`, `max_time = 500`, default duration 100. -/
def demoParam : VerbParam :=
  { key := "k", delay := 0, duration := 100, min_time := 50,
    max_time := 500, input_type := PRESS_KEY }

/-- Actionset exposing `demoParam` under the verb `left`, key `a`. -/
def demo_actionset : MKActionset :=
  { verb_dict := [("left", [demoParam])], key_dict := [("k", ["a"])] }

/-- C6 (amended): every produced press-type sub-action has its delay
clamped into `[0, max_time]` and its duration clamped between `min_time`
and `max_time - delay` (bounds swapped by `clamp` when they cross); on the
spec's example verb an explicit duration 9999 clamps to 500 and an absent
duration keeps the default 100. -/
theorem translate_clamping (a : MKActionset) (pdelay pduration inherent : Int)
    (p : VerbParam) (fa : FuncArgs) (hmax : 0 ≤ p.max_time)
    (h : processVerbParam a pdelay pduration inherent p = some fa) :
    (0 ≤ fa.delay ∧ fa.delay ≤ p.max_time) ∧
    (p.input_type = PRESS_KEY →
      min p.min_time (p.max_time - fa.delay) ≤ fa.duration ∧
      fa.duration ≤ max p.min_time (p.max_time - fa.delay)) ∧
    translate_message_contents_to_args_list demo_actionset [("left", 0, 9999)]
      = [{ key := "a", delay := 0, duration := 500 }] ∧
    translate_message_contents_to_args_list demo_actionset [("left", 0, 0)]
      = [{ key := "a", delay := 0, duration := 100 }] := by
  unfold processVerbParam at h
  cases hk : translate_verb_parameters_to_key a p with
  | none => rw [hk] at h; exact absurd h (by simp)
  | some k =>
    rw [hk] at h
    simp only [Option.some.injEq] at h
    subst h
    refine ⟨?_, ?_, by decide, by decide⟩
    · have hb := clamp_bounds 0 (pdelay + p.delay) p.max_time
      constructor <;> simp only <;> omega
    · intro hp
      simp only [hp, if_pos rfl]
      by_cases hd : pduration ≠ 0
      · rw [if_pos hd]
        exact clamp_bounds p.min_time _ _
      · rw [if_neg hd]
        exact clamp_bounds p.min_time _ _

/-- Witness for `translate_clamping` on the spec's example inputs. -/
theorem translate_clamping_witness :
    ((0 : Int) ≤ demoParam.max_time ∧
      processVerbParam demo_actionset 0 9999 100 demoParam
        = some { key := "a", delay := 0, duration := 500 }) ∧
    translate_message_contents_to_args_list demo_actionset [("left", 0, 9999)]
      = [{ key := "a", delay := 0, duration := 500 }] :=
  ⟨⟨by decide, by decide⟩,
    (translate_clamping demo_actionset 0 9999 100 demoParam
      { key := "a", delay := 0, duration := 500 }
      (by decide) (by decide)).2.2.1⟩

/-- C6 counterexample: with the example verb (`min_time = 50`,
`max_time = 500`) a user-supplied delay of 10 survives unclamped — the
produced sub-action's delay 10 lies outside `[min_time, max_time]`, because
the source clamps delays into `[0, max_time]` only. -/
theorem translate_clamping_counterexample :
    translate_message_contents_to_args_list demo_actionset [("left", 10, 0)]
      = [{ key := "a", delay := 10, duration := 100 }] ∧
    ¬(demoParam.min_time ≤ (10 : Int)) := by
  decide

/-- C7: translation of a command skips unknown verbs without aborting the
remaining verbs of the same message, and yields `None` (never an empty
list) when zero sub-actions result. -/
theorem unknown_verb_skip_and_none_on_empty (a : MKActionset)
    (parse : String → List (String × Int × Int)) (msg : ChatMessage)
    (v : String) (d t : Int) (rest : List (String × Int × Int)) :
    (dictGet a.verb_dict v = none → dictGet a.macro_dict v = none →
      translate_message_contents_to_args_list a ((v, d, t) :: rest)
        = translate_message_contents_to_args_list a rest) ∧
    (∀ l, translate_user_message_to_action a parse msg = some l → l ≠ []) ∧
    (translate_message_contents_to_args_list a (parse msg.message) = [] →
      translate_user_message_to_action a parse msg = none) := by
  refine ⟨?_, ?_, ?_⟩
  · intro hv hm
    unfold translate_message_contents_to_args_list processMatch
    rw [List.flatMap_cons]
    simp only [hv, hm, Option.orElse]
    rfl
  · intro l hl
    unfold translate_user_message_to_action at hl
    by_cases hc : message_is_command a msg = true
    · rw [if_pos hc] at hl
      unfold build_payload at hl
      by_cases hz :
          (translate_message_contents_to_args_list a (parse msg.message)).length
            = 0
      · rw [if_pos hz] at hl
        exact absurd hl (by simp)
      · rw [if_neg hz] at hl
        simp only [Option.some.injEq] at hl
        subst hl
        intro hnil
        exact hz (by rw [hnil]; rfl)
    · rw [if_neg hc] at hl
      exact absurd hl (by simp)
  · intro hz
    unfold translate_user_message_to_action build_payload
    rw [hz]
    simp

/-- Witness for `unknown_verb_skip_and_none_on_empty`: an unknown verb in
front of `left` is skipped, and a message whose only verb is unknown
translates to `None`. -/
theorem unknown_verb_skip_witness :
    (dictGet demo_actionset.verb_dict "unknownverb" = none ∧
      dictGet demo_actionset.macro_dict "unknownverb" = none ∧
      translate_message_contents_to_args_list demo_actionset
          [("unknownverb", 0, 0), ("left", 0, 0)]
        = translate_message_contents_to_args_list demo_actionset
          [("left", 0, 0)]) ∧
    (translate_message_contents_to_args_list demo_actionset
        [("unknownverb", 0, 0)] = [] ∧
      translate_user_message_to_action demo_actionset
        (fun _ => [("unknownverb", 0, 0)])
        { user := "alice", channel := "#chan", message := "+unknownverb" }
        = none) :=
  ⟨⟨by decide, by decide,
    (unknown_verb_skip_and_none_on_empty demo_actionset
      (fun _ => [("unknownverb", 0, 0)])
      { user := "alice", channel := "#chan", message := "+unknownverb" }
      "unknownverb" 0 0 [("left", 0, 0)]).1 (by decide) (by decide)⟩,
   ⟨by decide,
    (unknown_verb_skip_and_none_on_empty demo_actionset
      (fun _ => [("unknownverb", 0, 0)])
      { user := "alice", channel := "#chan", message := "+unknownverb" }
      "unknownverb" 0 0 []).2.2 (by decide)⟩⟩

/-! ## Team and global state (`teams/team.py`, `_shared/global_data.py`)

One `TeamState` per configured team; `GlobalState` couples the team list
with the global user→team registry (`GlobalData.Users`, a dict from
lowercased username to the owning team — here the team's index, standing
for the object identity the source compares with `is not`). -/

/-- The mutable per-team state the membership & queue operations touch. -/
structure TeamState where
  name : String
  channels : List String := []
  actionset : MKActionset := {}
  joinable : Bool := false
  leavable : Bool := false
  exclusive : Bool := true
  spam_protection : Bool := true
  use_random_inputs : Bool := false
  queue_length : Nat := 10
  user_whitelist : UserList := {}
  user_blacklist : UserList := {}
  members : List String := []
  message_queue : List ChatMessage := []
  action_queue : List (ChatMessage × List FuncArgs) := []
deriving DecidableEq, Repr

/-- Teams in registration order plus the global user→team registry. -/
structure GlobalState where
  teams : List TeamState := []
  registry : List (String × Nat) := []
deriving DecidableEq, Repr

/-- `GlobalData.Users.get_team`. -/
def registryGet (r : List (String × Nat)) (u : String) : Option Nat :=
  (r.find? (fun p => p.1 == u)).map (·.2)

/-- `GlobalData.Users.add` (dict assignment: overwrite). -/
def registryAdd (r : List (String × Nat)) (u : String) (i : Nat) :
    List (String × Nat) :=
  (r.filter (fun p => p.1 ≠ u)) ++ [(u, i)]

/-- `GlobalData.Users.discard`. -/
def registryDiscard (r : List (String × Nat)) (u : String) :
    List (String × Nat) :=
  r.filter (fun p => p.1 ≠ u)

/-- The duplicate test `add_message` runs under spam protection: same user
and identical text as a queued message. -/
def spamDup (q : List ChatMessage) (msg : ChatMessage) : Bool :=
  q.any (fun m => m.user == msg.user && m.message == msg.message)

/-- `Team.add_message`: under the queue lock, drop silently when spam
protection finds a duplicate; otherwise append to the bounded deque.  After
the lock, an exclusive team grants membership to a new user and updates the
global registry together with its own members set. -/
def add_message (s : GlobalState) (i : Nat) (msg : ChatMessage) :
    GlobalState :=
  match s.teams[i]? with
  | none => s
  | some t =>
    if t.spam_protection = true ∧ spamDup t.message_queue msg = true then s
    else
      let t' := { t with
        message_queue := boundedAppend t.queue_length t.message_queue msg }
      if t.exclusive = true ∧ msg.user ∉ t.members then
        { teams := s.teams.set i
            { t' with members := setInsert t'.members msg.user },
          registry := registryAdd s.registry msg.user i }
      else { s with teams := s.teams.set i t' }

/-- `Team.join_team`: only a joinable exclusive team admits; members set
and registry are updated together. -/
def join_team (s : GlobalState) (i : Nat) (user : String) :
    Bool × GlobalState :=
  match s.teams[i]? with
  | none => (false, s)
  | some t =>
    if t.joinable = true ∧ t.exclusive = true then
      (true,
        { teams := s.teams.set i
            { t with members := setInsert t.members user },
          registry := registryAdd s.registry user i })
    else (false, s)

/-- `Team.leave_team`: `members.remove` raises `KeyError` for a non-member
(caught, yielding `False`); on success the registry entry is discarded. -/
def leave_team (s : GlobalState) (i : Nat) (user : String) :
    Bool × GlobalState :=
  match s.teams[i]? with
  | none => (false, s)
  | some t =>
    if t.leavable = true then
      if user ∈ t.members then
        (true,
          { teams := s.teams.set i
              { t with members := setDiscard t.members user },
            registry := registryDiscard s.registry user })
      else (false, s)
    else (false, s)

/-- `Team._belongs_to_team`/`belongs_to_team` for the base `Team` class:
`AbsolutelyTrue` when already a member or on the whitelist, else
`MaybeFalse`; `bool(...)` collapses the Quadstate.  The whitelist check
caches, so the state can change. -/
def belongs_to_team (s : GlobalState) (i : Nat) (msg : ChatMessage) :
    Bool × GlobalState :=
  match s.teams[i]? with
  | none => (false, s)
  | some t =>
    if msg.user ∈ t.members then
      ((Quadstate.AbsolutelyTrue).toBool, s)
    else
      let r := message_in_list t.user_whitelist msg
      (if r.1 then (Quadstate.AbsolutelyTrue).toBool
        else (Quadstate.MaybeFalse).toBool,
       { s with teams := s.teams.set i { t with user_whitelist := r.2 } })

/-- `Team.blocked_from_team`: blocked when blacklisted, or when the team is
exclusive and the registry maps the user to a different team; a blocked
user still recorded as a member is evicted from both the members set and
the registry.  The blacklist check caches, so the state can change. -/
def blocked_from_team (s : GlobalState) (i : Nat) (msg : ChatMessage) :
    Bool × GlobalState :=
  match s.teams[i]? with
  | none => (false, s)
  | some t =>
    let r := message_in_list t.user_blacklist msg
    let t1 := { t with user_blacklist := r.2 }
    let isBlocked := r.1 ||
      (t.exclusive && match registryGet s.registry msg.user with
        | some j => decide (j ≠ i)
        | none => false)
    if isBlocked = true then
      if msg.user ∈ t1.members then
        (true,
          { teams := s.teams.set i
              { t1 with members := setDiscard t1.members msg.user },
            registry := registryDiscard s.registry msg.user })
      else (true, { s with teams := s.teams.set i t1 })
    else (false, { s with teams := s.teams.set i t1 })

/-- `functions.clear_team_members`: clear every non-empty members set,
report whether any team was non-empty.  The registry is not touched. -/
def clear_team_members (s : GlobalState) : Bool × GlobalState :=
  (s.teams.any (fun t => t.members.length > 0),
   { s with teams := s.teams.map (fun t =>
      if t.members.length > 0 then { t with members := [] } else t) })

/-- `functions.__add_message_to_team`: channel gate, then command gate,
then the block check (which may evict), then the inclusion check; only a
message passing all four is admitted via `add_message`. -/
def add_message_to_team (s : GlobalState) (i : Nat) (msg : ChatMessage) :
    Bool × GlobalState :=
  match s.teams[i]? with
  | none => (false, s)
  | some t =>
    if msg.channel ∈ t.channels then
      if message_is_command t.actionset msg then
        let b := blocked_from_team s i msg
        if b.1 then (false, b.2)
        else
          let g := belongs_to_team b.2 i msg
          if g.1 then (true, add_message g.2 i msg)
          else (false, g.2)
      else (false, s)
    else (false, s)

/-- The fallback linear scan of `add_message_to_assigned_team` over the
teams in registration order, threading the state (a failed attempt may
still have evicted someone). -/
def routerScan (msg : ChatMessage) : List Nat → GlobalState →
    Option Nat × GlobalState
  | [], s => (none, s)
  | i :: rest, s =>
    let r := add_message_to_team s i msg
    if r.1 then (some i, r.2) else routerScan msg rest r.2

/-- `functions.add_message_to_assigned_team`: only when the accept-input
toggle is on and the text starts with a registered action marker
(`GlobalData.Prefix.Action.message_is_action`); fast path through the
registry first, then the scan.  Returns the index of the admitting team
(`none` in the source, kept here as specification-level information). -/
def add_message_to_assigned_team (accept_input : Bool)
    (action_markers : List String) (s : GlobalState) (msg : ChatMessage) :
    Option Nat × GlobalState :=
  if accept_input = true ∧
      action_markers.any (fun p => strStartsWith msg.message p) = true then
    match registryGet s.registry msg.user with
    | some j =>
      let r := add_message_to_team s j msg
      if r.1 then (some j, r.2)
      else routerScan msg (List.range r.2.teams.length) r.2
    | none => routerScan msg (List.range s.teams.length) s
  else (none, s)

/-! ## The two worker-loop bodies, instrumented with the locks they hold

`Team._translate_queued_message` and `Team._execute_queued_action` are
embedded as state transformers that also emit the sequence of events they
perform, each tagged with the set of queue locks held at that point —
read off the `with`-block nesting of the source. -/

/-- The observable events of the two loop bodies. -/
inductive TeamEvent where
  | popMsg
  | translateCall
  | appendAction
  | clearMsgQueue
  | popAction
  | clearActionQueue
  | executeCall
  | sleepCall
deriving DecidableEq, Repr

/-- The two queue locks of a team. -/
inductive QueueLock where
  | messageQueueLock
  | actionQueueLock
deriving DecidableEq, Repr

/-- `Team._translate_queued_message`: pop the most recent message under the
message-queue lock; translation runs inside the same `with` block;
on success the `(msg, action)` pair is appended under the additional
action-queue lock and the rest of the message queue is cleared; an empty
queue raises `IndexError`, caught to sleep outside the lock. -/
def translate_queued_message
    (translate : ChatMessage → Option (List FuncArgs)) (t : TeamState) :
    TeamState × List (TeamEvent × List QueueLock) :=
  match t.message_queue.getLast? with
  | none => (t, [(.popMsg, [.messageQueueLock]), (.sleepCall, [])])
  | some msg =>
    let rest := t.message_queue.dropLast
    match translate msg with
    | none =>
      ({ t with message_queue := rest },
       [(.popMsg, [.messageQueueLock]),
        (.translateCall, [.messageQueueLock])])
    | some act =>
      ({ t with
          message_queue := []
          action_queue := boundedAppend t.queue_length t.action_queue
            (msg, act) },
       [(.popMsg, [.messageQueueLock]),
        (.translateCall, [.messageQueueLock]),
        (.appendAction, [.messageQueueLock, .actionQueueLock]),
        (.clearMsgQueue, [.messageQueueLock])])

/-- `Team._execute_queued_action`: pop the most recent pair and clear the
rest under the action-queue lock; the `input_server.execute` call happens
after the `with` block, holding no lock (on an empty queue the fallback
`empty_queue_action` is executed instead, also outside the lock). -/
def execute_queued_action (t : TeamState) :
    TeamState × List (TeamEvent × List QueueLock) :=
  match t.action_queue.getLast? with
  | none =>
    (t, [(.popAction, [.actionQueueLock]), (.executeCall, [])])
  | some _ =>
    ({ t with action_queue := [] },
     [(.popAction, [.actionQueueLock]),
      (.clearActionQueue, [.actionQueueLock]),
      (.executeCall, [])])

/-- The lock discipline C4 claims: translation and execution calls run
with no queue lock held. -/
def lock_free_calls (tr : List (TeamEvent × List QueueLock)) : Bool :=
  tr.all (fun e =>
    if e.1 = TeamEvent.translateCall ∨ e.1 = TeamEvent.executeCall then
      e.2.isEmpty
    else true)

/-! ## C2: translate-step queue discipline -/

/-- C2: when the popped (most recent) message translates into an action,
exactly that one `(msg, action)` pair is appended to the action queue and
the message queue is left empty; when translation yields no action, the
action queue is unchanged and the remaining pending messages survive. -/
theorem translate_step_queues
    (f : ChatMessage → Option (List FuncArgs)) (t : TeamState)
    (q : List ChatMessage) (msg : ChatMessage)
    (hq : t.message_queue = q ++ [msg]) :
    (∀ act, f msg = some act →
      (translate_queued_message f t).1.message_queue = [] ∧
      (translate_queued_message f t).1.action_queue
        = boundedAppend t.queue_length t.action_queue (msg, act)) ∧
    (f msg = none →
      (translate_queued_message f t).1.message_queue = q ∧
      (translate_queued_message f t).1.action_queue = t.action_queue) := by
  have hlast : t.message_queue.getLast? = some msg := by
    rw [hq]; simp
  have hdrop : t.message_queue.dropLast = q := by
    rw [hq]; simp
  constructor
  · intro act hact
    unfold translate_queued_message
    rw [hlast]
    simp only [hact]
    constructor <;> trivial
  · intro hnone
    unfold translate_queued_message
    rw [hlast]
    simp only [hnone, hdrop]
    constructor <;> trivial

/-- Witness for `translate_step_queues`: a two-message queue whose most
recent message translates; the older message is dropped. -/
theorem translate_step_queues_witness :
    (let t : TeamState :=
      { name := "a",
        message_queue :=
          [{ user := "u1", channel := "#chan", message := "+old" },
           { user := "u2", channel := "#chan", message := "+left" }] }
     let f := translate_user_message_to_action demo_actionset
       (fun _ => [("left", 0, 0)])
     f { user := "u2", channel := "#chan", message := "+left" }
        = some [{ key := "a", delay := 0, duration := 100 }] ∧
      ((translate_queued_message f t).1.message_queue = [] ∧
       (translate_queued_message f t).1.action_queue
        = boundedAppend t.queue_length t.action_queue
            ({ user := "u2", channel := "#chan", message := "+left" },
             [{ key := "a", delay := 0, duration := 100 }]))) :=
  ⟨by decide,
    (translate_step_queues _ _
      [{ user := "u1", channel := "#chan", message := "+old" }]
      { user := "u2", channel := "#chan", message := "+left" } rfl).1
      [{ key := "a", delay := 0, duration := 100 }] (by decide)⟩

/-! ## C3: add_message spam protection and bounded append -/

/-- C3: with spam protection on, a message whose user and text match a
queued message leaves the whole state unchanged (silent drop); otherwise
the message is appended to the bounded queue, and when the queue is full
the bounded append evicts exactly the oldest entry. -/
theorem add_message_spam_and_append (s : GlobalState) (i : Nat)
    (t : TeamState) (msg : ChatMessage) (ht : s.teams[i]? = some t) :
    (t.spam_protection = true → spamDup t.message_queue msg = true →
      add_message s i msg = s) ∧
    (t.spam_protection = false ∨ spamDup t.message_queue msg = false →
      ((add_message s i msg).teams[i]?).map TeamState.message_queue
        = some (boundedAppend t.queue_length t.message_queue msg)) ∧
    (t.message_queue.length = t.queue_length → 0 < t.queue_length →
      boundedAppend t.queue_length t.message_queue msg
        = t.message_queue.drop 1 ++ [msg]) := by
  have hi : i < s.teams.length := by
    by_contra hlen
    rw [List.getElem?_eq_none (Nat.le_of_not_lt hlen)] at ht
    exact absurd ht (by simp)
  refine ⟨?_, ?_, ?_⟩
  · intro hsp hdup
    unfold add_message
    rw [ht]
    dsimp only
    rw [if_pos ⟨hsp, hdup⟩]
  · intro hno
    unfold add_message
    rw [ht]
    have hcond : ¬(t.spam_protection = true ∧
        spamDup t.message_queue msg = true) := by
      rcases hno with hno | hno <;> simp [hno]
    dsimp only
    rw [if_neg hcond]
    by_cases hex : t.exclusive = true ∧ msg.user ∉ t.members
    · rw [if_pos hex]
      simp only [List.getElem?_set_eq_of_lt _ hi]
      rfl
    · rw [if_neg hex]
      simp only [List.getElem?_set_eq_of_lt _ hi]
      rfl
  · intro hfull hpos
    unfold boundedAppend
    rw [hfull]
    have : t.queue_length + 1 - t.queue_length = 1 := by omega
    rw [this]
    cases hmq : t.message_queue with
    | nil =>
      rw [hmq] at hfull
      simp at hfull
      omega
    | cons m rest => simp

/-- The concrete team for the C3 witness: a full two-slot queue. -/
def c3_team : TeamState :=
  { name := "a"
    queue_length := 2
    message_queue := [{ user := "u1", channel := "#c", message := "+a" },
                      { user := "u2", channel := "#c", message := "+b" }]
    members := ["u1", "u2"] }

/-- The concrete global state for the C3 witness. -/
def c3_state : GlobalState := { teams := [c3_team] }

/-- Witness for `add_message_spam_and_append`: in `c3_state` a duplicate of
the first queued message is dropped, and a fresh message appended to the
full queue evicts the oldest entry. -/
theorem add_message_spam_witness :
    (c3_team.spam_protection = true ∧
      spamDup c3_team.message_queue
        { user := "u1", channel := "#c", message := "+a" } = true ∧
      add_message c3_state 0
        { user := "u1", channel := "#c", message := "+a" } = c3_state) ∧
    (c3_team.message_queue.length = c3_team.queue_length ∧
      0 < c3_team.queue_length ∧
      boundedAppend c3_team.queue_length c3_team.message_queue
          { user := "u3", channel := "#c", message := "+d" }
        = c3_team.message_queue.drop 1 ++
          [{ user := "u3", channel := "#c", message := "+d" }]) :=
  ⟨⟨by decide, by decide,
    (add_message_spam_and_append c3_state 0 c3_team
      { user := "u1", channel := "#c", message := "+a" } rfl).1
      (by decide) (by decide)⟩,
   ⟨by decide, by decide,
    (add_message_spam_and_append c3_state 0 c3_team
      { user := "u3", channel := "#c", message := "+d" } rfl).2.2
      (by decide) (by decide)⟩⟩

/-! ## C10: channel gate of the router helper -/

/-- C10: a message whose channel is not among a team's configured channels
is rejected by `__add_message_to_team` with no state change at all — the
channel test is the first conjunct, so the membership and block logic
never runs. -/
theorem add_message_to_team_channel_gate (s : GlobalState) (i : Nat)
    (t : TeamState) (msg : ChatMessage) (ht : s.teams[i]? = some t)
    (hc : msg.channel ∉ t.channels) :
    add_message_to_team s i msg = (false, s) := by
  unfold add_message_to_team
  rw [ht]
  dsimp only
  rw [if_neg hc]

/-- Witness for `add_message_to_team_channel_gate`: a whitelisted member's
message on a foreign channel is rejected without a state change. -/
theorem add_message_to_team_channel_gate_witness :
    (let t : TeamState :=
      { name := "a"
        channels := ["#chan"]
        actionset := demo_actionset
        user_whitelist := { fixed_users := ["u1"],
                            included_users := ["u1"], known_users := ["u1"] }
        members := ["u1"] }
     let s : GlobalState := { teams := [t], registry := [("u1", 0)] }
     let msg : ChatMessage :=
      { user := "u1", channel := "#other", message := "+left" }
     msg.channel ∉ t.channels ∧ add_message_to_team s 0 msg = (false, s)) :=
  ⟨by decide,
    add_message_to_team_channel_gate _ 0 _ _ rfl (by decide)⟩

/-! ## C4: lock scope of the two loop bodies -/

/-- C4 (amended): the execute loop's `input_server.execute` call always
runs with no queue lock held, but the translate loop calls
`translate_user_message_to_action` while still holding the message-queue
lock (the call sits inside the `with self.message_queue_lock` block). -/
theorem lock_scope (f : ChatMessage → Option (List FuncArgs))
    (t : TeamState) :
    ((execute_queued_action t).2.all (fun e =>
      if e.1 = TeamEvent.executeCall then e.2.isEmpty else true)) = true ∧
    ((translate_queued_message f t).2.all (fun e =>
      if e.1 = TeamEvent.translateCall
      then e.2 == [QueueLock.messageQueueLock] else true)) = true := by
  constructor
  · unfold execute_queued_action
    split <;> rfl
  · unfold translate_queued_message
    split
    · rfl
    · split <;> rfl

/-- C4 counterexample: on a team with one pending translatable message the
translate-loop body performs its translation call while holding the
message-queue lock, so the claimed lock-free-call discipline fails. -/
theorem lock_scope_counterexample :
    lock_free_calls
      (translate_queued_message
        (fun _ => some [{ key := "a", delay := 0, duration := 100 }])
        { name := "a",
          message_queue :=
            [{ user := "u1", channel := "#chan", message := "+left" }] }).2
      = false := by
  decide

/-! ## C1: exclusive-membership invariant -/

theorem mem_setInsert_self (s : List String) (x : String) :
    x ∈ setInsert s x := by
  unfold setInsert
  by_cases h : x ∈ s
  · rwa [if_pos h]
  · rw [if_neg h]
    exact List.mem_append_right _ (List.mem_singleton_self x)

theorem registryGet_registryAdd (r : List (String × Nat)) (u : String)
    (i : Nat) : registryGet (registryAdd r u i) u = some i := by
  induction r with
  | nil => simp [registryGet, registryAdd]
  | cons p r ih =>
    unfold registryGet registryAdd
    unfold registryGet registryAdd at ih
    by_cases hp : p.1 = u
    · rw [List.filter_cons_of_neg (by simp [hp])]
      exact ih
    · rw [List.filter_cons_of_pos (by simp [hp]), List.cons_append,
        List.find?_cons_of_neg _ (by simp [hp])]
      exact ih

/-- How many teams with the exclusive flag count `u` as a member. -/
def exclusive_member_count (s : GlobalState) (u : String) : Nat :=
  (s.teams.filter (fun t => t.exclusive && t.members.contains u)).length

/-- Every registry entry points to a team whose members set contains the
user. -/
def registry_to_members (s : GlobalState) : Bool :=
  s.registry.all (fun p => match s.teams[p.2]? with
    | some t => t.members.contains p.1
    | none => false)

/-- Every member of an exclusive team is registered to exactly that
team. -/
def members_to_registry (s : GlobalState) : Bool :=
  (List.range s.teams.length).all (fun i => match s.teams[i]? with
    | some t =>
      !t.exclusive || t.members.all (fun u =>
        registryGet s.registry u == some i)
    | none => true)

/-- The users mentioned anywhere in the membership state. -/
def all_users (s : GlobalState) : List String :=
  s.teams.flatMap (fun t => t.members) ++ s.registry.map (·.1)

/-- C1's claimed invariant: at most one exclusive membership per user, and
registry and members sets mutually consistent. -/
def membership_invariant (s : GlobalState) : Bool :=
  (all_users s).all (fun u => decide (exclusive_member_count s u ≤ 1))
    && registry_to_members s && members_to_registry s

/-- One application of a membership-mutating operation. -/
inductive MembershipStep : GlobalState → GlobalState → Prop where
  | ofAddMessage (s : GlobalState) (i : Nat) (msg : ChatMessage) :
      MembershipStep s (add_message s i msg)
  | ofJoin (s : GlobalState) (i : Nat) (user : String) :
      MembershipStep s (join_team s i user).2
  | ofLeave (s : GlobalState) (i : Nat) (user : String) :
      MembershipStep s (leave_team s i user).2
  | ofBlocked (s : GlobalState) (i : Nat) (msg : ChatMessage) :
      MembershipStep s (blocked_from_team s i msg).2
  | ofClear (s : GlobalState) :
      MembershipStep s (clear_team_members s).2

/-- States reachable from `s0` by membership-mutating operations. -/
inductive MembershipReachable (s0 : GlobalState) : GlobalState → Prop where
  | refl : MembershipReachable s0 s0
  | step {s s' : GlobalState} : MembershipReachable s0 s →
      MembershipStep s s' → MembershipReachable s0 s'

/-- A joinable exclusive team with no members. -/
def c1_team (nm : String) : TeamState :=
  { name := nm, channels := ["#chan"], joinable := true, exclusive := true }

/-- Two joinable exclusive teams, nobody registered. -/
def c1_init : GlobalState := { teams := [c1_team "red", c1_team "blue"] }

/-- `join_team` to both exclusive teams in sequence. -/
def c1_bad : GlobalState :=
  (join_team (join_team c1_init 0 "u").2 1 "u").2

/-- C1 counterexample: from a clean two-team state, two `join_team` calls
put the same user into the members sets of two exclusive teams (the second
join never checks the registry), so the claimed invariant fails on a
reachable state. -/
theorem membership_invariant_counterexample :
    MembershipReachable c1_init c1_bad ∧
    membership_invariant c1_init = true ∧
    membership_invariant c1_bad = false ∧
    exclusive_member_count c1_bad "u" = 2 := by
  refine ⟨?_, by decide, by decide, by decide⟩
  exact MembershipReachable.step
    (MembershipReachable.step MembershipReachable.refl
      (MembershipStep.ofJoin c1_init 0 "u"))
    (MembershipStep.ofJoin (join_team c1_init 0 "u").2 1 "u")

/-- C1 (amended): every exclusive-membership grant does couple the two
updates — after `add_message` on an exclusive team admits a new user
(no spam drop), and after a successful `join_team`, the user is in that
team's members set and the global registry maps the user to that team.
The at-most-one-exclusive-team invariant itself is refuted separately. -/
theorem exclusive_grant_updates_registry_and_members (s : GlobalState)
    (i : Nat) (t : TeamState) (msg : ChatMessage) (user : String)
    (ht : s.teams[i]? = some t) :
    (t.exclusive = true → msg.user ∉ t.members →
      ¬(t.spam_protection = true ∧ spamDup t.message_queue msg = true) →
      ((add_message s i msg).teams[i]?).map
          (fun t' => decide (msg.user ∈ t'.members)) = some true ∧
      registryGet (add_message s i msg).registry msg.user = some i) ∧
    (t.joinable = true → t.exclusive = true →
      (join_team s i user).1 = true ∧
      (((join_team s i user).2).teams[i]?).map
          (fun t' => decide (user ∈ t'.members)) = some true ∧
      registryGet ((join_team s i user).2).registry user = some i) := by
  have hi : i < s.teams.length := by
    by_contra hlen
    rw [List.getElem?_eq_none (Nat.le_of_not_lt hlen)] at ht
    exact absurd ht (by simp)
  constructor
  · intro hex hmem hspam
    unfold add_message
    rw [ht]
    dsimp only
    rw [if_neg hspam, if_pos ⟨hex, hmem⟩]
    constructor
    · simp only [List.getElem?_set_eq_of_lt _ hi, Option.map_some']
      simp [mem_setInsert_self]
    · exact registryGet_registryAdd s.registry msg.user i
  · intro hj hex
    unfold join_team
    rw [ht]
    dsimp only
    rw [if_pos ⟨hj, hex⟩]
    refine ⟨rfl, ?_, ?_⟩
    · simp only [List.getElem?_set_eq_of_lt _ hi, Option.map_some']
      simp [mem_setInsert_self]
    · exact registryGet_registryAdd s.registry user i

/-- Witness for `exclusive_grant_updates_registry_and_members` on
`c1_init`: admitting a message and joining both establish membership plus
registry entry for team 0. -/
theorem exclusive_grant_witness :
    ((c1_team "red").exclusive = true ∧
      "u1" ∉ (c1_team "red").members ∧
      ((add_message c1_init 0
          { user := "u1", channel := "#chan", message := "+left" }).teams[0]?).map
          (fun t' => decide ("u1" ∈ t'.members)) = some true ∧
      registryGet (add_message c1_init 0
          { user := "u1", channel := "#chan", message := "+left" }).registry
          "u1" = some 0) ∧
    ((join_team c1_init 0 "u2").1 = true ∧
      registryGet ((join_team c1_init 0 "u2").2).registry "u2" = some 0) :=
  ⟨⟨by decide, by decide,
    ((exclusive_grant_updates_registry_and_members c1_init 0 (c1_team "red")
        { user := "u1", channel := "#chan", message := "+left" } "u2"
        rfl).1 (by decide) (by decide) (by decide)).1,
    ((exclusive_grant_updates_registry_and_members c1_init 0 (c1_team "red")
        { user := "u1", channel := "#chan", message := "+left" } "u2"
        rfl).1 (by decide) (by decide) (by decide)).2⟩,
   ⟨((exclusive_grant_updates_registry_and_members c1_init 0 (c1_team "red")
        { user := "u1", channel := "#chan", message := "+left" } "u2"
        rfl).2 (by decide) (by decide)).1,
    ((exclusive_grant_updates_registry_and_members c1_init 0 (c1_team "red")
        { user := "u1", channel := "#chan", message := "+left" } "u2"
        rfl).2 (by decide) (by decide)).2.2⟩⟩

/-! ## C5: router gate, delivery, and side effects -/

/-- The pair of queues of team `i`, the part of the state C5's amendment
says a failed delivery leaves untouched. -/
def queues_view (s : GlobalState) (i : Nat) :
    Option (List ChatMessage × List (ChatMessage × List FuncArgs)) :=
  (s.teams[i]?).map (fun t => (t.message_queue, t.action_queue))

/-- All teams keep both queues unchanged between two states. -/
def queues_unchanged (s s' : GlobalState) : Prop :=
  ∀ i, queues_view s' i = queues_view s i

theorem queues_unchanged_refl (s : GlobalState) : queues_unchanged s s :=
  fun _ => rfl

theorem queues_unchanged_trans {s1 s2 s3 : GlobalState}
    (h12 : queues_unchanged s1 s2) (h23 : queues_unchanged s2 s3) :
    queues_unchanged s1 s3 :=
  fun i => (h23 i).trans (h12 i)

theorem queues_unchanged_set (s : GlobalState) (i : Nat) (t t' : TeamState)
    (ht : s.teams[i]? = some t)
    (hm : t'.message_queue = t.message_queue)
    (ha : t'.action_queue = t.action_queue)
    (r' : List (String × Nat)) :
    queues_unchanged s { teams := s.teams.set i t', registry := r' } := by
  have hi : i < s.teams.length := by
    by_contra hlen
    rw [List.getElem?_eq_none (Nat.le_of_not_lt hlen)] at ht
    exact absurd ht (by simp)
  intro j
  unfold queues_view
  by_cases hj : i = j
  · subst hj
    rw [show ({ teams := s.teams.set i t', registry := r' } :
        GlobalState).teams = s.teams.set i t' from rfl,
      List.getElem?_set_eq_of_lt _ hi, ht]
    simp only [Option.map_some']
    rw [hm, ha]
  · rw [show ({ teams := s.teams.set i t', registry := r' } :
        GlobalState).teams = s.teams.set i t' from rfl,
      List.getElem?_set_ne hj]

theorem blocked_from_team_queues (s : GlobalState) (i : Nat)
    (msg : ChatMessage) :
    queues_unchanged s (blocked_from_team s i msg).2 := by
  unfold blocked_from_team
  cases ht : s.teams[i]? with
  | none => exact queues_unchanged_refl s
  | some t =>
    dsimp only
    split
    · split
      · dsimp only
        refine queues_unchanged_set s i t _ ht ?_ ?_ _ <;> rfl
      · dsimp only
        refine queues_unchanged_set s i t _ ht ?_ ?_ _ <;> rfl
    · dsimp only
      refine queues_unchanged_set s i t _ ht ?_ ?_ _ <;> rfl

theorem belongs_to_team_queues (s : GlobalState) (i : Nat)
    (msg : ChatMessage) :
    queues_unchanged s (belongs_to_team s i msg).2 := by
  unfold belongs_to_team
  cases ht : s.teams[i]? with
  | none => exact queues_unchanged_refl s
  | some t =>
    dsimp only
    split
    · exact queues_unchanged_refl s
    · dsimp only
      refine queues_unchanged_set s i t _ ht ?_ ?_ _ <;> rfl

theorem add_message_to_team_false_queues (s : GlobalState) (i : Nat)
    (msg : ChatMessage)
    (h : (add_message_to_team s i msg).1 = false) :
    queues_unchanged s (add_message_to_team s i msg).2 := by
  unfold add_message_to_team at h ⊢
  cases ht : s.teams[i]? with
  | none =>
    rw [ht] at h
    exact queues_unchanged_refl s
  | some t =>
    rw [ht] at h
    dsimp only at h ⊢
    by_cases hc : msg.channel ∈ t.channels
    · rw [if_pos hc] at h ⊢
      by_cases hcmd : message_is_command t.actionset msg = true
      · rw [if_pos hcmd] at h ⊢
        by_cases hb : (blocked_from_team s i msg).1 = true
        · rw [if_pos hb] at h ⊢
          exact blocked_from_team_queues s i msg
        · rw [if_neg hb] at h ⊢
          by_cases hg : (belongs_to_team (blocked_from_team s i msg).2 i
              msg).1 = true
          · rw [if_pos hg] at h
            simp at h
          · rw [if_neg hg] at h ⊢
            exact queues_unchanged_trans (blocked_from_team_queues s i msg)
              (belongs_to_team_queues (blocked_from_team s i msg).2 i msg)
      · rw [if_neg hcmd] at h ⊢
        exact queues_unchanged_refl s
    · rw [if_neg hc] at h ⊢
      exact queues_unchanged_refl s

theorem routerScan_none_queues (msg : ChatMessage) (idxs : List Nat) :
    ∀ s : GlobalState, (routerScan msg idxs s).1 = none →
      queues_unchanged s (routerScan msg idxs s).2 := by
  induction idxs with
  | nil => intro s _; exact queues_unchanged_refl s
  | cons i rest ih =>
    intro s h
    unfold routerScan at h ⊢
    by_cases hr : (add_message_to_team s i msg).1 = true
    · simp only [hr, if_pos rfl] at h
      exact absurd h (by simp)
    · simp only [Bool.not_eq_true] at hr
      simp only [hr] at h ⊢
      simp only [Bool.false_eq_true, if_false] at h ⊢
      exact queues_unchanged_trans
        (add_message_to_team_false_queues s i msg hr)
        (ih (add_message_to_team s i msg).2 h)

/-- C5 (amended): the router delivers only when the accept-input toggle is
on and the text starts with a registered action marker (otherwise the state
is untouched); a registry fast-path team that accepts is used directly,
before any scan; and when no team accepts, the message is not enqueued
anywhere — every team's queues are unchanged — although the block checks
run along the way may still evict an illegitimately held membership. -/
theorem router_gate_fast_path_and_queues (accept_input : Bool)
    (markers : List String) (s : GlobalState) (msg : ChatMessage) :
    (¬(accept_input = true ∧
        markers.any (fun p => strStartsWith msg.message p) = true) →
      add_message_to_assigned_team accept_input markers s msg = (none, s)) ∧
    (accept_input = true →
      markers.any (fun p => strStartsWith msg.message p) = true →
      ∀ j, registryGet s.registry msg.user = some j →
        (add_message_to_team s j msg).1 = true →
        add_message_to_assigned_team accept_input markers s msg
          = (some j, (add_message_to_team s j msg).2)) ∧
    ((add_message_to_assigned_team accept_input markers s msg).1 = none →
      queues_unchanged s
        (add_message_to_assigned_team accept_input markers s msg).2) := by
  refine ⟨?_, ?_, ?_⟩
  · intro hg
    unfold add_message_to_assigned_team
    rw [if_neg hg]
  · intro ha hm j hr hacc
    unfold add_message_to_assigned_team
    rw [if_pos ⟨ha, hm⟩, hr]
    dsimp only
    rw [if_pos hacc]
  · intro hnone
    unfold add_message_to_assigned_team at hnone ⊢
    by_cases hg : accept_input = true ∧
        markers.any (fun p => strStartsWith msg.message p) = true
    · rw [if_pos hg] at hnone ⊢
      cases hr : registryGet s.registry msg.user with
      | none =>
        rw [hr] at hnone
        dsimp only at hnone ⊢
        exact routerScan_none_queues msg _ s hnone
      | some j =>
        rw [hr] at hnone
        dsimp only at hnone ⊢
        by_cases hacc : (add_message_to_team s j msg).1 = true
        · rw [if_pos hacc] at hnone
          simp at hnone
        · rw [if_neg hacc] at hnone ⊢
          refine queues_unchanged_trans
            (add_message_to_team_false_queues s j msg ?_) ?_
          · simpa using hacc
          · exact routerScan_none_queues msg _
              (add_message_to_team s j msg).2 hnone
    · rw [if_neg hg] at hnone ⊢
      exact queues_unchanged_refl s

/-- The C5 counterexample team: `eve` is blacklisted (as `add_to_list`
records a fixed user: cached as known and included) yet still listed as a
member, with the registry pointing at the team. -/
def c5_team : TeamState :=
  { name := "a"
    channels := ["#chan"]
    actionset := demo_actionset
    user_blacklist := { fixed_users := ["eve"], included_users := ["eve"],
                        known_users := ["eve"] }
    members := ["eve"] }

/-- The C5 counterexample state. -/
def c5_init : GlobalState := { teams := [c5_team], registry := [("eve", 0)] }

/-- The message `eve` sends. -/
def c5_msg : ChatMessage :=
  { user := "eve", channel := "#chan", message := "+left" }

/-- Witness for `router_gate_fast_path_and_queues`: with the gate off the
router returns the state unchanged, and on a no-team-accepts run every
team's queues are unchanged. -/
theorem router_gate_witness :
    (¬((false : Bool) = true ∧
        ["+"].any (fun p => strStartsWith c5_msg.message p) = true) ∧
      add_message_to_assigned_team false ["+"] c5_init c5_msg
        = (none, c5_init)) ∧
    ((add_message_to_assigned_team true ["+"] c5_init c5_msg).1 = none ∧
      queues_unchanged c5_init
        (add_message_to_assigned_team true ["+"] c5_init c5_msg).2) :=
  ⟨⟨by decide,
    (router_gate_fast_path_and_queues false ["+"] c5_init c5_msg).1
      (by decide)⟩,
   ⟨by decide,
    (router_gate_fast_path_and_queues true ["+"] c5_init c5_msg).2.2
      (by decide)⟩⟩

/-- C5 counterexample: in `c5_init` no team accepts `c5_msg` (the user is
blacklisted), the message is dropped — but the failed attempt evicted
`eve` from the team's members set and from the registry, so the drop does
have a side effect. -/
theorem router_side_effect_counterexample :
    (add_message_to_assigned_team true ["+"] c5_init c5_msg).1 = none ∧
    ((add_message_to_assigned_team true ["+"] c5_init c5_msg).2.teams[0]?).map
        TeamState.members = some [] ∧
    (c5_init.teams[0]?).map TeamState.members = some ["eve"] ∧
    (add_message_to_assigned_team true ["+"] c5_init c5_msg).2.registry
      = [] := by
  decide
